import Mathlib

/-!
Verification of the action-resolution engine in `world/dominion/plots/models.py`
(`PlotAction`, `PlotActionAssistant`, `ActionRequirement`).

The Django models are shallowly embedded as Lean structures; queryset-backed
collections become lists, nullable foreign keys become `Option` ids, and the
external collaborators (player ledgers, army directory, outcome tables) become
explicit parameters or small ledger structures, modelled from the spec where the
collaborator code is outside this repository.
-/

/-- Status constants of `PlotAction`: `DRAFT, NEEDS_PLAYER, NEEDS_GM, CANCELLED,
PENDING_PUBLISH, PUBLISHED = range(6)`. -/
inductive Status where
  | draft
  | needsPlayer
  | needsGM
  | cancelled
  | pendingPublish
  | published
deriving DecidableEq, Repr

/-- Requirement type constants of `ActionRequirement`:
`SILVER, MILITARY, ECONOMIC, SOCIAL, AP, CLUE, REVELATION, SKILL_NODE, SPELL,
FORCES, ITEM, EVENT = range(12)`. -/
inductive ReqType where
  | silver
  | military
  | economic
  | social
  | ap
  | clue
  | revelation
  | skillNode
  | spell
  | forces
  | item
  | event
deriving DecidableEq, Repr

/-- `RESOURCE_TYPES = (SILVER, MILITARY, ECONOMIC, SOCIAL, AP)` -/
def RESOURCE_TYPES : List ReqType := [.silver, .military, .economic, .social, .ap]

/-- `DESCRIPTION_TYPES = (EVENT, FORCES)` -/
def DESCRIPTION_TYPES : List ReqType := [.event, .forces]

/-- `FK_TYPES = (CLUE, REVELATION, SKILL_NODE, SPELL, ITEM)` -/
def FK_TYPES : List ReqType := [.clue, .revelation, .skillNode, .spell, .item]

/-- Plot usage constants: `CRISIS, GM_PLOT, PLAYER_RUN_PLOT, PITCH, PERSONAL_STORY`. -/
inductive PlotUsage where
  | crisis
  | gmPlot
  | playerRunPlot
  | pitch
  | personalStory
deriving DecidableEq, Repr

/-- The fields of a `Plot` consulted by the action workflow:
its usage, whether it is `resolved`, and whether `datetime.now() > end_date`
(the deadline test in `Plot.raise_submission_errors`). -/
structure PlotInfo where
  usage : PlotUsage
  resolved : Bool
  pastEndDate : Bool
deriving DecidableEq, Repr

/-- An `Orders` row linked to the action (directly or through one of its
assists), as queried by `ActionRequirement.check_requirement_met` and mutated
by `PlotAction.send`. -/
structure Order where
  complete : Bool
deriving DecidableEq, Repr

/-- An `ActionRequirement` row. Foreign keys are ids (`clue_id`, ..., `rfr_id`,
`fulfilled_by_id`); the owning `action` reference is kept implicit by storing
requirements in the action's `requirements` list. -/
structure ActionRequirement where
  requirement_type : ReqType
  total_required_amount : Nat
  max_rate : Nat
  weekly_total : Nat
  clue_id : Option Nat
  revelation_id : Option Nat
  skill_node_id : Option Nat
  spell_id : Option Nat
  item_id : Option Nat
  fulfilled_by_id : Option Nat
  requirement_text : String
  explanation : String
  rfr_id : Option Nat
deriving DecidableEq, Repr

/-- A `PlotActionAssistant` row: the player-specific fields of `AbstractAction`
plus the assist's resource counters. `roll_value` is the externally computed
stat/skill check value for the assisting character (the `StatWeight` lookups
are outside this repository). -/
structure Assist where
  dompc : Nat
  actions : String
  topic : String
  stat_used : String
  skill_used : String
  has_ooc_intent : Bool
  attending : Bool
  editable : Bool
  traitor : Bool
  date_submitted : Option Nat
  silver : Nat
  military : Nat
  economic : Nat
  social : Nat
  action_points : Nat
  roll_value : Int
deriving DecidableEq, Repr

/-- A `PlotAction` row together with its owned collections (assists,
requirements, orders). `roll_value` is the externally computed stat/skill
check value for the owner. `org_present` abstracts `self.org` being set;
`beat_episode_is_current` abstracts `beat.episode == Episode.objects.last()`. -/
structure PlotAction where
  dompc : Nat
  status : Status
  editable : Bool
  free_action : Bool
  attending : Bool
  prefer_offscreen : Bool
  traitor : Bool
  date_submitted : Option Nat
  actions : String
  topic : String
  stat_used : String
  skill_used : String
  has_ooc_intent : Bool
  category_set : Bool
  silver : Nat
  military : Nat
  economic : Nat
  social : Nat
  action_points : Nat
  max_points_silver : Nat
  max_points_social : Nat
  max_points_economic : Nat
  max_points_military : Nat
  max_points_ap : Nat
  max_points_assists : Nat
  silver_divisor : Nat
  social_divisor : Nat
  economic_divisor : Nat
  military_divisor : Nat
  ap_divisor : Nat
  assist_divisor : Nat
  additional_modifiers : Int
  roll_value : Int
  target_rank : Option Nat
  roll_result : Option Nat
  beat : Option Nat
  beat_episode_is_current : Bool
  week : Nat
  gm : Option Nat
  plot : Option PlotInfo
  org_present : Bool
  assists : List Assist
  requirements : List ActionRequirement
  orders : List Order
deriving DecidableEq, Repr

/-- `int(math.ceil(val / divisor))` for an integer `val` and positive integer
`divisor`: the ceiling of the rational `val / divisor`, computed as
`-⌊-val / divisor⌋`. -/
def intCeilDiv (val : Int) (divisor : Nat) : Int :=
  -((-val).fdiv divisor)

/-- `PlotAction.total_social`: `self.social + sum(ob.social for ob in self.assisting_actions.all())` -/
def PlotAction.total_social (a : PlotAction) : Nat :=
  a.social + (a.assists.map Assist.social).sum

/-- `PlotAction.total_economic` -/
def PlotAction.total_economic (a : PlotAction) : Nat :=
  a.economic + (a.assists.map Assist.economic).sum

/-- `PlotAction.total_military` -/
def PlotAction.total_military (a : PlotAction) : Nat :=
  a.military + (a.assists.map Assist.military).sum

/-- `PlotAction.total_silver` -/
def PlotAction.total_silver (a : PlotAction) : Nat :=
  a.silver + (a.assists.map Assist.silver).sum

/-- `PlotAction.total_action_points` -/
def PlotAction.total_action_points (a : PlotAction) : Nat :=
  a.action_points + (a.assists.map Assist.action_points).sum

/-- `ActionRequirement.total`: amount collected so far, dispatched on the
requirement type; `-1` for non-resource types. The owning action is passed
explicitly (`self.action` in the source). -/
def ActionRequirement.total (r : ActionRequirement) (a : PlotAction) : Int :=
  if r.requirement_type = .silver then a.total_silver
  else if r.requirement_type = .military then a.total_military
  else if r.requirement_type = .social then a.total_social
  else if r.requirement_type = .economic then a.total_economic
  else if r.requirement_type = .ap then a.total_action_points
  else -1

/-- Whether any of the entity foreign keys of the requirement is set: the
condition `self.clue_id or self.spell_id or self.skill_node_id or
self.revelation_id or self.item_id` opening `check_requirement_met`. -/
def ActionRequirement.hasEntityRef (r : ActionRequirement) : Bool :=
  r.clue_id.isSome || r.spell_id.isSome || r.skill_node_id.isSome ||
    r.revelation_id.isSome || r.item_id.isSome

/-- Errors raised by the embedded operations. `ActionSubmissionError` messages
become distinct constructors; `ValueError` on an unexpected requirement type
becomes `invariantViolation`. -/
inductive ActionError where
  | joinFirst
  | plotResolved
  | plotPastDeadline
  | invalidResourceType
  | noUnmetRequirement
  | noMatchingRequirement
  | alreadyMet
  | amountNotPositive
  | exceedsWeeklyRate
  | exceedsTotalRequired
  | cannotAfford
  | notEnoughActionPoints
  | noArmyFound
  | ordersFailed
  | noDifficultySet
  | incompleteFields
  | staffOnBreak
  | orgBusy
  | noOrgSelected
  | overcrowded
  | unmetRequirements
  | actionAlreadyTakenThisEpisode
  | warningPrompt
  | invariantViolation
deriving DecidableEq, Repr

/-- `ActionRequirement.check_requirement_met`: entity-reference requirements are
met iff `fulfilled_by_id` is set; event requirements iff `rfr_id` is set;
forces requirements iff any `Orders` row is linked to the action or one of its
assists; resource requirements iff the collected total reaches
`total_required_amount`. An unexpected type raises `ValueError`. -/
def ActionRequirement.check_requirement_met (r : ActionRequirement) (a : PlotAction) :
    Except ActionError Bool :=
  if r.hasEntityRef then
    .ok r.fulfilled_by_id.isSome
  else if r.requirement_type = .event then
    .ok r.rfr_id.isSome
  else if r.requirement_type = .forces then
    .ok (decide (a.orders ≠ []))
  else
    let total := r.total a
    if total = -1 then
      .error .invariantViolation
    else
      .ok (decide ((r.total_required_amount : Int) ≤ total))

/-- `ActionRequirement.check_value_exceeds_weekly_rate` -/
def ActionRequirement.check_value_exceeds_weekly_rate (r : ActionRequirement) (value : Int) : Bool :=
  if r.max_rate ≤ 0 then false
  else decide ((r.weekly_total : Int) + value > (r.max_rate : Int))

/-- The helper `get_value_from_assists(attr, divisor, maximum, base_value=0)`
inside `PlotAction.total_roll_value`: returns `0` when the cap is not positive,
otherwise `base_value + min(maximum, ceil(sum(attr over assists) / divisor))`. -/
def get_value_from_assists (assists : List Assist) (attr : Assist → Int)
    (divisor : Nat) (maximum : Nat) (base_value : Int) : Int :=
  if maximum ≤ 0 then 0
  else base_value + min (maximum : Int) (intCeilDiv ((assists.map attr).sum) divisor)

/-- `PlotAction.total_roll_value`: the owner's roll value plus flat modifiers,
plus the capped and ceiling-divided assist roll values, plus capped resource
contributions (the action's own amount enters as `base_value`, at full value,
but only when the type's cap is positive). -/
def PlotAction.total_roll_value (a : PlotAction) : Int :=
  let base := a.roll_value + a.additional_modifiers
  let base := base +
    get_value_from_assists a.assists Assist.roll_value a.assist_divisor a.max_points_assists 0
  let base := base +
    get_value_from_assists a.assists (fun ob => (ob.silver : Int))
      a.silver_divisor a.max_points_silver (a.silver : Int)
  let base := base +
    get_value_from_assists a.assists (fun ob => (ob.economic : Int))
      a.economic_divisor a.max_points_economic (a.economic : Int)
  let base := base +
    get_value_from_assists a.assists (fun ob => (ob.social : Int))
      a.social_divisor a.max_points_social (a.social : Int)
  let base := base +
    get_value_from_assists a.assists (fun ob => (ob.military : Int))
      a.military_divisor a.max_points_military (a.military : Int)
  base

/-- A participant's external holdings touched by payments and refunds.
Modelled from the spec: the `ParticipantLedger` collaborator (`pay_money` on
the character, `pay_resources` / `pay_action_points` / `gain_resources` on the
player, and the asset `vault`) lives outside this repository; a payment
succeeds iff the holdings suffice and then debits exactly the amount. -/
structure Ledger where
  vault : Nat
  military : Nat
  economic : Nat
  social : Nat
  action_points : Nat
deriving DecidableEq, Repr

/-- Modelled from the spec: `char_ob.pay_money(value)` raises `PayError` when
the vault is short, else debits it. -/
def Ledger.pay_money (led : Ledger) (v : Nat) : Option Ledger :=
  if led.vault < v then none else some { led with vault := led.vault - v }

/-- Modelled from the spec: `player.pay_resources(r_type, value)` returns
falsy for an unknown resource name or insufficient holdings. -/
def Ledger.pay_resources (led : Ledger) (r_type : String) (v : Nat) : Option Ledger :=
  if r_type = "military" then
    if led.military < v then none else some { led with military := led.military - v }
  else if r_type = "economic" then
    if led.economic < v then none else some { led with economic := led.economic - v }
  else if r_type = "social" then
    if led.social < v then none else some { led with social := led.social - v }
  else none

/-- Modelled from the spec: `player.pay_action_points(value)` returns falsy on
insufficient action points. -/
def Ledger.pay_action_points (led : Ledger) (v : Nat) : Option Ledger :=
  if led.action_points < v then none else some { led with action_points := led.action_points - v }

/-- `AbstractAction.refund`: credit back the AP refund amount
(`action_points + BASE_AP_COST`, and `BASE_AP_COST = 0`), each non-zero
capital type, and silver into the vault. -/
def refundLedger (led : Ledger) (silver mil eco soc ap : Nat) : Ledger :=
  { led with
    action_points := led.action_points + ap
    military := led.military + mil
    economic := led.economic + eco
    social := led.social + soc
    vault := led.vault + silver }

/-- Pointwise update of the per-participant ledger map. -/
def updLedgers (L : Nat → Ledger) (id : Nat) (led : Ledger) : Nat → Ledger :=
  fun n => if n = id then led else L n

/-- `PlotActionAssistant.cancel`: refund iff the assist has action text
written, then hard-delete (deletion itself is the removal from the parent's
assist list, done by the caller). This function returns the ledger effect. -/
def Assist.cancelRefund (x : Assist) (L : Nat → Ledger) : Nat → Ledger :=
  if x.actions ≠ "" then
    updLedgers L x.dompc (refundLedger (L x.dompc) x.silver x.military x.economic x.social x.action_points)
  else L

/-- `PlotAction.cancel`: cancel every assist (refund-if-written plus delete),
refund the main action, then hard-delete when never submitted, else set status
`CANCELLED`. Returns the updated ledgers and the surviving row, if any. -/
def PlotAction.cancel (a : PlotAction) (L : Nat → Ledger) :
    (Nat → Ledger) × Option PlotAction :=
  let L := a.assists.foldl (fun acc x => x.cancelRefund acc) L
  let L := updLedgers L a.dompc
    (refundLedger (L a.dompc) a.silver a.military a.economic a.social a.action_points)
  if a.date_submitted.isNone then (L, none)
  else (L, some { a with status := .cancelled, assists := [] })

/-- `PlotAction.send`: stamps the week, stamps the beat when an update is
given, and unless already published marks every linked army order complete and
sets the status to `PUBLISHED`; assigns the GM if unset and always locks
`editable = False`. There is no guard on the starting status. `get_week()` is
external and passed as `wk`. -/
def PlotAction.send (a : PlotAction) (update : Option Nat) (wk : Nat) (caller : Option Nat) :
    PlotAction :=
  let a := { a with week := wk }
  let a := match update with
    | some u => { a with beat := some u }
    | none => a
  let a :=
    if a.status ≠ Status.published then
      { a with
        orders := a.orders.map (fun o => { o with complete := true })
        status := Status.published }
    else a
  let a := if a.gm.isNone then { a with gm := caller } else a
  { a with editable := false }

/-- `PlotAction.roll_all`: fails when no target rank is set, otherwise maps
the recomputed total through the external outcome table
(`CheckRank.get_table_for_value(total, target_rank).get_result_for_roll()`,
passed as the oracle `resolve`) and overwrites `roll_result`. Returns the
resulting row and the raised error, if any. -/
def PlotAction.roll_all (a : PlotAction) (resolve : Int → Nat → Nat) :
    PlotAction × Option ActionError :=
  match a.target_rank with
  | none => (a, some .noDifficultySet)
  | some r => ({ a with roll_result := some (resolve a.total_roll_value r) }, none)

/-- A fresh `ActionRequirement` row with Django field defaults. -/
def blankRequirement (t : ReqType) : ActionRequirement :=
  { requirement_type := t
    total_required_amount := 0
    max_rate := 0
    weekly_total := 0
    clue_id := none
    revelation_id := none
    skill_node_id := none
    spell_id := none
    item_id := none
    fulfilled_by_id := none
    requirement_text := ""
    explanation := ""
    rfr_id := none }

/-- A fresh entity-keyed requirement as created by
`get_or_create(requirement_type=t, <entity>=value)`. -/
def blankFkRequirement (t : ReqType) (e : Nat) : ActionRequirement :=
  match t with
  | .clue => { blankRequirement t with clue_id := some e }
  | .revelation => { blankRequirement t with revelation_id := some e }
  | .item => { blankRequirement t with item_id := some e }
  | .spell => { blankRequirement t with spell_id := some e }
  | .skillNode => { blankRequirement t with skill_node_id := some e }
  | _ => blankRequirement t

/-- Key predicate for entity-typed `get_or_create`: same requirement type and
same entity id. -/
def fkKeyMatch (t : ReqType) (e : Nat) (r : ActionRequirement) : Bool :=
  decide (r.requirement_type = t) &&
    (match t with
     | .clue => decide (r.clue_id = some e)
     | .revelation => decide (r.revelation_id = some e)
     | .item => decide (r.item_id = some e)
     | .spell => decide (r.spell_id = some e)
     | .skillNode => decide (r.skill_node_id = some e)
     | _ => false)

/-- `get_or_create` followed by field updates and `save()`: update the first
row matching `key`, or append an updated fresh row; the flag is Django's
`created`. -/
def getOrCreateReq (reqs : List ActionRequirement) (key : ActionRequirement → Bool)
    (blank : ActionRequirement) (upd : ActionRequirement → ActionRequirement) :
    List ActionRequirement × Bool :=
  match reqs with
  | [] => ([upd blank], true)
  | r :: rest =>
    if key r then (upd r :: rest, false)
    else
      let found := getOrCreateReq rest key blank upd
      (r :: found.1, found.2)

/-- `PlotAction.add_action_requirement`: dispatch by requirement-type family
(resource / description / entity), get-or-create the requirement, set its
fields, then force the action to `NEEDS_PLAYER` with `editable = True`.
The returned flag records whether `inform_action_of_new_requirement` fired,
which happens exactly when the row was created. `amount` is the value for
resource types, `txt` for description types, `entity` for entity types. -/
def PlotAction.add_action_requirement (a : PlotAction) (t : ReqType)
    (amount : Nat) (txt : String) (entity : Nat) (max_rate : Nat) :
    PlotAction × Bool :=
  let found :=
    if t ∈ RESOURCE_TYPES then
      getOrCreateReq a.requirements (fun r => decide (r.requirement_type = t))
        (blankRequirement t)
        (fun r => { r with total_required_amount := amount, max_rate := max_rate })
    else if t ∈ DESCRIPTION_TYPES then
      getOrCreateReq a.requirements (fun r => decide (r.requirement_type = t))
        (blankRequirement t)
        (fun r => { r with requirement_text := txt })
    else
      getOrCreateReq a.requirements (fkKeyMatch t entity) (blankFkRequirement t entity) id
  ({ a with requirements := found.1, status := .needsPlayer, editable := true }, found.2)

/-- A contributing participant: the main action's owner or the assist at a
given position of the assist list. -/
inductive Contributor where
  | owner
  | assist (i : Nat)
deriving DecidableEq, Repr

/-- The contributor's `self.actions` text, when the contributor exists. -/
def PlotAction.contributorActions (a : PlotAction) (who : Contributor) : Option String :=
  match who with
  | .owner => some a.actions
  | .assist i => (a.assists[i]?).map Assist.actions

/-- The contributor's `self.dompc` id, when the contributor exists. -/
def PlotAction.contributorDompc (a : PlotAction) (who : Contributor) : Option Nat :=
  match who with
  | .owner => some a.dompc
  | .assist i => (a.assists[i]?).map Assist.dompc

/-- `ActionRequirement.get_choice_constant_from_string`: the display-choice
strings inverted, plus the explicit aliases added to the mapping; a missing
key (`KeyError`) is `none`. -/
def get_choice_constant_from_string (name : String) : Option ReqType :=
  if name = "silver" then some .silver
  else if name = "military resources" then some .military
  else if name = "economic resources" then some .economic
  else if name = "social resources" then some .social
  else if name = "action points" then some .ap
  else if name = "clue" then some .clue
  else if name = "revelation" then some .revelation
  else if name = "magic skill node" then some .skillNode
  else if name = "spell" then some .spell
  else if name = "military forces" then some .forces
  else if name = "item" then some .item
  else if name = "Other Requirement/Event" then some .event
  else if name = "social" then some .social
  else if name = "military" then some .military
  else if name = "economic" then some .economic
  else if name = "army" then some .forces
  else if name = "forces" then some .forces
  else if name = "skillnode" then some .skillNode
  else if name = "skill_node" then some .skillNode
  else if name = "event" then some .event
  else if name = "rfr" then some .event
  else if name = "ap" then some .ap
  else if name = "action_points" then some .ap
  else none

/-- The per-type entity comparison of
`ActionRequirement.find_matching_fk_from_list` (`ob.clue == value`, etc.),
at the level of entity ids. -/
def fkValueMatch (t : ReqType) (v : Nat) (r : ActionRequirement) : Bool :=
  match t with
  | .clue => decide (r.clue_id = some v)
  | .revelation => decide (r.revelation_id = some v)
  | .item => decide (r.item_id = some v)
  | .skillNode => decide (r.skill_node_id = some v)
  | .spell => decide (r.spell_id = some v)
  | _ => false

/-- `setattr(self, r_type, getattr(self, r_type) + value)` on an assist, with
the attribute selected by the lowercased resource name; `none` models an
`AttributeError` on an unknown attribute. -/
def Assist.addToCounter (x : Assist) (attr : String) (v : Nat) : Option Assist :=
  if attr = "silver" then some { x with silver := x.silver + v }
  else if attr = "military" then some { x with military := x.military + v }
  else if attr = "economic" then some { x with economic := x.economic + v }
  else if attr = "social" then some { x with social := x.social + v }
  else if attr = "action_points" then some { x with action_points := x.action_points + v }
  else none

/-- The same counter update applied to the contributing participant (the
action's own counters for the owner, or the assist's counters). -/
def PlotAction.addToContributorCounter (a : PlotAction) (who : Contributor)
    (attr : String) (v : Nat) : Option PlotAction :=
  match who with
  | .owner =>
    if attr = "silver" then some { a with silver := a.silver + v }
    else if attr = "military" then some { a with military := a.military + v }
    else if attr = "economic" then some { a with economic := a.economic + v }
    else if attr = "social" then some { a with social := a.social + v }
    else if attr = "action_points" then some { a with action_points := a.action_points + v }
    else none
  | .assist i =>
    match a.assists[i]? with
    | none => none
    | some x =>
      match x.addToCounter attr v with
      | none => none
      | some x2 => some { a with assists := a.assists.set i x2 }

/-- `Plot.raise_creation_errors` (which delegates to
`Plot.raise_submission_errors`): a resolved plot or one past its deadline
refuses new contributions. -/
def plotRaiseCreationErrors (a : PlotAction) : Option ActionError :=
  match a.plot with
  | none => none
  | some p =>
    if p.resolved then some ActionError.plotResolved
    else if p.pastEndDate then some ActionError.plotPastDeadline
    else none

/-- `r_type.lower()`: ASCII lowercasing, written on the character list so that
it evaluates by kernel reduction. -/
def strLower (s : String) : String := ⟨s.data.map Char.toLower⟩

/-- The payment dispatch inside the resource branch of
`add_required_resource`: silver is paid from the vault via `pay_money`,
action points via `pay_action_points` (renaming the attribute to
`action_points`), anything else via `pay_resources`; a failed debit raises
without touching anything. Returns the debited ledger and the attribute name
used for the counter update. -/
def payForResource (led : Ledger) (r_type : String) (v : Nat) :
    Except ActionError (Ledger × String) :=
  if r_type = "silver" then
    match led.pay_money v with
    | none => Except.error ActionError.cannotAfford
    | some led2 => Except.ok (led2, "silver")
  else if r_type = "ap" || r_type = "action points" then
    match led.pay_action_points v with
    | none => Except.error ActionError.notEnoughActionPoints
    | some led2 => Except.ok (led2, "action_points")
  else
    match led.pay_resources r_type v with
    | none => Except.error ActionError.cannotAfford
    | some led2 => Except.ok (led2, r_type)

/-- `AbstractAction.add_required_resource`: the full guard chain and typed
dispatch. `who` identifies the contributing participant (`self`), `led` is
that participant's external ledger, and `armyFound` / `ordersOk` model the
external `Army` lookup and `army.send_orders` call of `add_army` (outside this
repository's core). On success returns the updated action and ledger. -/
def PlotAction.add_required_resource (a : PlotAction) (who : Contributor) (led : Ledger)
    (armyFound : Bool) (ordersOk : Bool)
    (r_type0 : String) (value : Int) (explanationText : String) :
    Except ActionError (PlotAction × Ledger) :=
  match a.contributorActions who, a.contributorDompc who with
  | some selfActions, some selfDompc =>
    if selfActions = "" then .error .joinFirst
    else
      match plotRaiseCreationErrors a with
      | some e => .error e
      | none =>
        let r_type := strLower r_type0
        match get_choice_constant_from_string r_type with
        | none => .error .invalidResourceType
        | some req_type =>
          if (a.requirements.filter (fun r => decide (r.requirement_type = req_type))) = [] then
            .error .noUnmetRequirement
          else
            match (if req_type ∈ FK_TYPES then
                     a.requirements.findIdx? (fun r =>
                       decide (r.requirement_type = req_type) && fkValueMatch req_type value.toNat r)
                   else
                     a.requirements.findIdx? (fun r => decide (r.requirement_type = req_type))) with
            | none => .error .noMatchingRequirement
            | some idx =>
              match a.requirements[idx]? with
              | none => .error .invariantViolation
              | some req =>
                match req.check_requirement_met a with
                | .error e => .error e
                | .ok true => .error .alreadyMet
                | .ok false =>
                  if req.requirement_type = .forces then
                    if !armyFound then .error .noArmyFound
                    else if !ordersOk then .error .ordersFailed
                    else
                      let req2 := { req with fulfilled_by_id := some selfDompc,
                                             explanation := explanationText }
                      .ok ({ a with orders := a.orders ++ [{ complete := false }],
                                    requirements := a.requirements.set idx req2 }, led)
                  else if req.requirement_type ∈ RESOURCE_TYPES then
                    if value ≤ 0 then .error .amountNotPositive
                    else if req.check_value_exceeds_weekly_rate value then .error .exceedsWeeklyRate
                    else if (req.total_required_amount : Int) < value + req.total a then
                      .error .exceedsTotalRequired
                    else
                      match payForResource led r_type value.toNat with
                      | .error e => .error e
                      | .ok (led2, attr) =>
                        let req2 := { req with weekly_total := req.weekly_total + value.toNat }
                        match a.addToContributorCounter who attr value.toNat with
                        | none => .error .invariantViolation
                        | some a2 =>
                          .ok ({ a2 with requirements := a2.requirements.set idx req2 }, led2)
                  else if req.requirement_type ∈ FK_TYPES then
                    let req2 := { req with fulfilled_by_id := some selfDompc }
                    .ok ({ a with requirements := a.requirements.set idx req2 }, led)
                  else if req.requirement_type = .event then
                    let req2 := { req with explanation := explanationText,
                                           fulfilled_by_id := some selfDompc,
                                           rfr_id := some value.toNat }
                    .ok ({ a with requirements := a.requirements.set idx req2 }, led)
                  else .error .invariantViolation
  | _, _ => .error .invariantViolation

/-- `attending_limit = 5` on `PlotAction`. -/
def attending_limit : Nat := 5

/-- `PlotAction.check_incomplete_required_fields`: action text, ooc intent,
tldr, both roll fields, and (on the main action) a category. `true` means at
least one field is missing. -/
def PlotAction.fieldsIncomplete (a : PlotAction) : Bool :=
  decide (a.actions = "") || !a.has_ooc_intent || decide (a.topic = "") ||
    decide (a.skill_used = "") || decide (a.stat_used = "") || !a.category_set

/-- `AbstractAction.check_incomplete_required_fields` for an assist (no
category field). -/
def Assist.fieldsIncomplete (x : Assist) : Bool :=
  decide (x.actions = "") || !x.has_ooc_intent || decide (x.topic = "") ||
    decide (x.skill_used = "") || decide (x.stat_used = "")

/-- `PlotAction.attendees`: authors of the action and assists that have
written action text and are physically attending. -/
def PlotAction.attendeesCount (a : PlotAction) : Nat :=
  (if a.actions ≠ "" ∧ a.attending then 1 else 0) +
    (a.assists.filter (fun x => decide (x.actions ≠ "") && x.attending)).length

/-- `all_editable` is nonempty: the action itself or any assist is editable. -/
def PlotAction.allEditableNonempty (a : PlotAction) : Bool :=
  a.editable || a.assists.any Assist.editable

/-- Scan the requirements in order as the list comprehension in
`check_requirement_errors` does: propagate the first `ValueError`, otherwise
report whether any requirement is unmet. -/
def anyRequirementUnmet (a : PlotAction) : List ActionRequirement → Except ActionError Bool
  | [] => .ok false
  | r :: rest =>
    match r.check_requirement_met a with
    | .error e => .error e
    | .ok b =>
      match anyRequirementUnmet a rest with
      | .error e => .error e
      | .ok anyRest => .ok (!b || anyRest)

/-- The ambient flags around a submission that live outside the `PlotAction`
row: staff break status, the `Episode`-scoped queries of `check_org_busy` and
`check_action_against_maximum_allowed` restricted to rows other than this
action, the one-shot warning prompt (`ndb.action_submission_prompt`), and
whether an `ActionPerEpisode` row already exists for this action. -/
structure World where
  action : PlotAction
  staffOnBreak : Bool
  orgOtherActionQualifies : Bool
  orgOtherEpisodeActionExists : Bool
  otherActionPerEpisodeExists : Bool
  promptSent : Bool
  actionPerEpisodeCreated : Bool
deriving DecidableEq, Repr

/-- Observable side effects of a submission: staff/player notifications and
assist refunds. -/
inductive Event where
  | staffSubmitNotice
  | resubmitNotice
  | assistCancelNotice (dompc : Nat)
  | assistRefund (dompc : Nat)
deriving DecidableEq, Repr

/-- `check_org_busy` followed by `check_plot_overcrowd`, as sequenced in
`check_plot_errors`. The `check_org_busy` queryset does not exclude the
action itself, so the action's own row qualifies whenever its status is not
`DRAFT`/`CANCELLED` and its beat is null or in the current episode. -/
def checkPlotErrors (w : World) : Option ActionError :=
  let a := w.action
  let plotErr : Option ActionError :=
    match a.plot with
    | none => none
    | some p =>
      let winErr : Option ActionError :=
        if a.status ≠ Status.needsPlayer then
          if p.resolved then some .plotResolved
          else if p.pastEndDate then some .plotPastDeadline
          else none
        else none
      match winErr with
      | some e => some e
      | none =>
        if p.usage = PlotUsage.crisis then
          if !a.org_present then some .noOrgSelected
          else if w.orgOtherActionQualifies ||
              (decide (a.status ≠ Status.draft) && decide (a.status ≠ Status.cancelled) &&
               (a.beat.isNone || a.beat_episode_is_current)) then
            some .orgBusy
          else none
        else none
  match plotErr with
  | some e => some e
  | none =>
    if a.attendeesCount > attending_limit ∧ ¬a.prefer_offscreen then some .overcrowded
    else none

/-- `check_action_against_maximum_allowed`: skipped for free actions; an org
action conflicts with another org action this episode, a personal action with
another `ActionPerEpisode` row this episode. -/
def checkMaxAllowed (w : World) : Option ActionError :=
  if w.action.free_action then none
  else if w.action.org_present then
    if w.orgOtherEpisodeActionExists then some .actionAlreadyTakenThisEpisode else none
  else
    if w.otherActionPerEpisodeExists then some .actionAlreadyTakenThisEpisode else none

/-- `PlotAction.raise_submission_errors`: required fields, staff break, plot
errors, unmet requirements, then draft-only checks (episode maximum and the
one-shot warning prompt, which records itself before raising). Returns the
updated world (the prompt flag may change) and the raised error, if any. -/
def World.raise_submission_errors (w : World) : World × Option ActionError :=
  if w.action.fieldsIncomplete then (w, some .incompleteFields)
  else if w.staffOnBreak && !(decide (w.action.status = Status.needsPlayer)) then
    (w, some .staffOnBreak)
  else
    match checkPlotErrors w with
    | some e => (w, some e)
    | none =>
      match anyRequirementUnmet w.action w.action.requirements with
      | .error e => (w, some e)
      | .ok true => (w, some .unmetRequirements)
      | .ok false =>
        if w.action.status = Status.draft then
          match checkMaxAllowed w with
          | some e => (w, some e)
          | none =>
            if !w.promptSent then ({ w with promptSent := true }, some .warningPrompt)
            else (w, none)
        else (w, none)

/-- `PlotActionAssistant.raise_submission_errors` outcome for one assist:
required fields plus the break check, where the assist's
`can_submit_during_break` passes through to the main action's status. -/
def assistReady (brk : Bool) (mainStatus : Status) (x : Assist) : Bool :=
  !x.fieldsIncomplete && !(brk && !(decide (mainStatus = Status.needsPlayer)))

/-- The `submit_or_refund` loop over not-yet-submitted assists: a ready assist
is stamped submitted; an unready one is informed, refunded iff it wrote action
text, and deleted. -/
def submitAssists (brk : Bool) (mainStatus : Status) (now : Nat) :
    List Assist → List Assist × List Event
  | [] => ([], [])
  | x :: rest =>
    let tail := submitAssists brk mainStatus now rest
    if x.date_submitted.isSome then (x :: tail.1, tail.2)
    else if assistReady brk mainStatus x then
      ({ x with date_submitted := some now } :: tail.1, tail.2)
    else
      (tail.1,
        Event.assistCancelNotice x.dompc ::
          (if x.actions ≠ "" then Event.assistRefund x.dompc :: tail.2 else tail.2))

/-- `PlotAction.on_submit_success` together with the inherited
`AbstractAction.on_submit_success` and `post_edit`: from `DRAFT` move to
`NEEDS_GM`, submit-or-refund each unsubmitted assist and notify staff; stamp
`date_submitted` when unset; `post_edit` then moves `NEEDS_PLAYER` to
`NEEDS_GM` when nothing is editable, and gets-or-creates the
`ActionPerEpisode` row for org-less actions. -/
def World.on_submit_success (w : World) (now : Nat) : World × List Event :=
  let a := w.action
  let draft := decide (a.status = Status.draft)
  let a := if draft then { a with status := Status.needsGM } else a
  let stepped :=
    if draft then submitAssists w.staffOnBreak a.status now a.assists
    else (a.assists, [])
  let a := if draft then { a with assists := stepped.1 } else a
  let evs := stepped.2 ++ (if draft then [Event.staffSubmitNotice] else [])
  let a := if a.date_submitted.isNone then { a with date_submitted := some now } else a
  let resub := decide (a.status = Status.needsPlayer) && !a.allEditableNonempty
  let a := if resub then { a with status := Status.needsGM } else a
  let evs := evs ++ (if resub then [Event.resubmitNotice] else [])
  ({ w with
      action := a
      actionPerEpisodeCreated := w.actionPerEpisodeCreated || !a.org_present }, evs)

/-- `AbstractAction.submit`: `raise_submission_errors` then
`on_submit_success`. Returns the world, the raised error, and the emitted
notifications/refunds. -/
def World.submit (w : World) (now : Nat) : World × Option ActionError × List Event :=
  match w.raise_submission_errors with
  | (w2, some e) => (w2, some e, [])
  | (w2, none) =>
    let r := w2.on_submit_success now
    (r.1, none, r.2)

/-- A contribution network: the action graph plus every participant's
external ledger, keyed by dompc id. -/
structure CWorld where
  action : PlotAction
  ledgers : Nat → Ledger

/-- One attempted call to `add_required_resource` by some participant. -/
structure ContribOp where
  who : Contributor
  armyFound : Bool
  ordersOk : Bool
  r_type : String
  value : Int
  explanation : String

/-- Apply one contribution: on any raised error the world is unchanged. -/
def CWorld.applyContrib (w : CWorld) (op : ContribOp) : CWorld :=
  match w.action.contributorDompc op.who with
  | none => w
  | some d =>
    match w.action.add_required_resource op.who (w.ledgers d) op.armyFound op.ordersOk
        op.r_type op.value op.explanation with
    | .error _ => w
    | .ok (a2, led2) => { action := a2, ledgers := updLedgers w.ledgers d led2 }

/-- Apply a sequence of contribution attempts in order. -/
def CWorld.applyContribs (w : CWorld) (ops : List ContribOp) : CWorld :=
  ops.foldl CWorld.applyContrib w

/-- An action row with Django field defaults (divisors/caps as declared on the
model) and no collections. -/
def baseAction : PlotAction :=
  { dompc := 1
    status := .draft
    editable := true
    free_action := false
    attending := true
    prefer_offscreen := false
    traitor := false
    date_submitted := none
    actions := ""
    topic := ""
    stat_used := ""
    skill_used := ""
    has_ooc_intent := false
    category_set := false
    silver := 0
    military := 0
    economic := 0
    social := 0
    action_points := 0
    max_points_silver := 0
    max_points_social := 0
    max_points_economic := 0
    max_points_military := 0
    max_points_ap := 0
    max_points_assists := 300
    silver_divisor := 100000
    social_divisor := 1000
    economic_divisor := 1000
    military_divisor := 1000
    ap_divisor := 100
    assist_divisor := 3
    additional_modifiers := 0
    roll_value := 0
    target_rank := none
    roll_result := none
    beat := none
    beat_episode_is_current := false
    week := 0
    gm := none
    plot := none
    org_present := false
    assists := []
    requirements := []
    orders := [] }

/-- An assist row with defaults. -/
def baseAssist : Assist :=
  { dompc := 2
    actions := ""
    topic := ""
    stat_used := ""
    skill_used := ""
    has_ooc_intent := false
    attending := true
    editable := true
    traitor := false
    date_submitted := none
    silver := 0
    military := 0
    economic := 0
    social := 0
    action_points := 0
    roll_value := 0 }

/-- The total-roll formula exactly as claim C2 words it: base roll plus
modifiers, plus `min(cap, ceil(assist total / divisor))` for the assist rolls,
plus for each resource type `min(cap, ceil(assist total / divisor))` plus the
action's own amount counted once at full value, unconditionally. -/
def claimedTotalRollValue (a : PlotAction) : Int :=
  a.roll_value + a.additional_modifiers
    + min (a.max_points_assists : Int)
        (intCeilDiv ((a.assists.map Assist.roll_value).sum) a.assist_divisor)
    + (min (a.max_points_silver : Int)
        (intCeilDiv ((a.assists.map (fun ob => (ob.silver : Int))).sum) a.silver_divisor)
        + (a.silver : Int))
    + (min (a.max_points_economic : Int)
        (intCeilDiv ((a.assists.map (fun ob => (ob.economic : Int))).sum) a.economic_divisor)
        + (a.economic : Int))
    + (min (a.max_points_social : Int)
        (intCeilDiv ((a.assists.map (fun ob => (ob.social : Int))).sum) a.social_divisor)
        + (a.social : Int))
    + (min (a.max_points_military : Int)
        (intCeilDiv ((a.assists.map (fun ob => (ob.military : Int))).sum) a.military_divisor)
        + (a.military : Int))

/-- The total-roll formula as amended: a resource type (and the assist-roll
bucket) contributes nothing at all when its cap is zero; with a positive cap
the own amount enters at full value plus the capped, ceiling-divided assist
total. -/
def amendedTotalRollValue (a : PlotAction) : Int :=
  a.roll_value + a.additional_modifiers
    + (if a.max_points_assists = 0 then 0
       else min (a.max_points_assists : Int)
         (intCeilDiv ((a.assists.map Assist.roll_value).sum) a.assist_divisor))
    + (if a.max_points_silver = 0 then 0
       else (a.silver : Int) + min (a.max_points_silver : Int)
         (intCeilDiv ((a.assists.map (fun ob => (ob.silver : Int))).sum) a.silver_divisor))
    + (if a.max_points_economic = 0 then 0
       else (a.economic : Int) + min (a.max_points_economic : Int)
         (intCeilDiv ((a.assists.map (fun ob => (ob.economic : Int))).sum) a.economic_divisor))
    + (if a.max_points_social = 0 then 0
       else (a.social : Int) + min (a.max_points_social : Int)
         (intCeilDiv ((a.assists.map (fun ob => (ob.social : Int))).sum) a.social_divisor))
    + (if a.max_points_military = 0 then 0
       else (a.military : Int) + min (a.max_points_military : Int)
         (intCeilDiv ((a.assists.map (fun ob => (ob.military : Int))).sum) a.military_divisor))

/-- An action that spent 100 silver of its own while the silver cap is at its
default of 0. -/
def actionOwnSilver : PlotAction := { baseAction with silver := 100 }

/-- The spec's ceiling example: one assist contributing a roll value of 10,
with assist divisor 3 and assist cap 5. -/
def actionCeilExample : PlotAction :=
  { baseAction with
    max_points_assists := 5
    assists := [{ baseAssist with roll_value := 10 }] }

/-- A clue-referencing requirement fulfilled by participant 2. -/
def reqClueFulfilled : ActionRequirement :=
  { blankRequirement .clue with clue_id := some 5, fulfilled_by_id := some 2 }

/-- The silver requirement used to exercise the contribution machinery. -/
def reqSilver500 : ActionRequirement :=
  { blankRequirement .silver with total_required_amount := 500 }

/-- A ready action owned by participant 1 holding a silver requirement. -/
def actionForContrib : PlotAction :=
  { baseAction with
    actions := "story"
    requirements := [reqSilver500] }

/-- A contribution network for the witness: the owner has a vault of 1000. -/
def cworldContrib : CWorld :=
  { action := actionForContrib
    ledgers := fun _ =>
      { vault := 1000, military := 0, economic := 0, social := 0, action_points := 0 } }

/-- One owner contribution of 300 silver. -/
def opSilver300 : ContribOp :=
  { who := .owner
    armyFound := false
    ordersOk := false
    r_type := "silver"
    value := 300
    explanation := "" }

/-- The owner's ledger before the witness contribution. -/
def contribLedger : Ledger :=
  { vault := 1000, military := 0, economic := 0, social := 0, action_points := 0 }

/-- The owner's ledger after paying 300 silver. -/
def debitedLedger : Ledger :=
  { vault := 700, military := 0, economic := 0, social := 0, action_points := 0 }

/-- Assist of participant 2 who wrote text and spent 50 effort points. -/
def assistWrote1 : Assist := { baseAssist with dompc := 2, actions := "helped", action_points := 50 }

/-- Assist of participant 3 who wrote text and spent 30 effort points. -/
def assistWrote2 : Assist := { baseAssist with dompc := 3, actions := "also helped", action_points := 30 }

/-- Assist of participant 4 who never wrote anything. -/
def assistSilent : Assist := { baseAssist with dompc := 4 }

/-- A submitted action with three assists, two of which contributed effort. -/
def actionWithAssists : PlotAction :=
  { baseAction with date_submitted := some 10, assists := [assistWrote1, assistWrote2, assistSilent] }

/-- A flat ledger map for the cancellation witness. -/
def flatLedgers : Nat → Ledger := fun _ => contribLedger

/-- A draft action with one incomplete army order. -/
def actionDraftWithOrder : PlotAction :=
  { baseAction with status := .draft, orders := [{ complete := false }] }

/-- The `get_or_create` key used by `add_action_requirement`: entity types key
on (type, entity id); resource and description types key on the type alone. -/
def reqKey (t : ReqType) (entity : Nat) : ActionRequirement → Bool :=
  if t ∈ FK_TYPES then fkKeyMatch t entity
  else fun r => decide (r.requirement_type = t)

/-- A submission-ready draft world: complete fields, no plot, no assists, the
one-shot warning already acknowledged. -/
def readyWorld : World :=
  { action :=
      { baseAction with
        actions := "story"
        topic := "tldr"
        stat_used := "wits"
        skill_used := "war"
        has_ooc_intent := true
        category_set := true }
    staffOnBreak := false
    orgOtherActionQualifies := false
    orgOtherEpisodeActionExists := false
    otherActionPerEpisodeExists := false
    promptSent := true
    actionPerEpisodeCreated := false }

/-- C1: `check_requirement_met` is decided only by the rule for the
requirement's kind: an entity-referencing requirement is met iff
`fulfilled_by` is set; an event requirement iff its `rfr` is set; a forces
requirement iff army orders linked to the action or its assists exist; a
resource requirement iff the total spent of that type across the action and
all assists reaches `total_required_amount`; and no amount of spent resources
decides a non-resource kind. -/
theorem check_requirement_met_by_kind (r : ActionRequirement) (a : PlotAction) :
    (r.hasEntityRef = true →
      r.check_requirement_met a = .ok r.fulfilled_by_id.isSome) ∧
    (r.hasEntityRef = false → r.requirement_type = .event →
      r.check_requirement_met a = .ok r.rfr_id.isSome) ∧
    (r.hasEntityRef = false → r.requirement_type = .forces →
      (r.check_requirement_met a = .ok true ↔ a.orders ≠ [])) ∧
    (r.hasEntityRef = false → r.requirement_type = .silver →
      (r.check_requirement_met a = .ok true ↔ r.total_required_amount ≤ a.total_silver)) ∧
    (r.hasEntityRef = false → r.requirement_type = .military →
      (r.check_requirement_met a = .ok true ↔ r.total_required_amount ≤ a.total_military)) ∧
    (r.hasEntityRef = false → r.requirement_type = .economic →
      (r.check_requirement_met a = .ok true ↔ r.total_required_amount ≤ a.total_economic)) ∧
    (r.hasEntityRef = false → r.requirement_type = .social →
      (r.check_requirement_met a = .ok true ↔ r.total_required_amount ≤ a.total_social)) ∧
    (r.hasEntityRef = false → r.requirement_type = .ap →
      (r.check_requirement_met a = .ok true ↔ r.total_required_amount ≤ a.total_action_points)) ∧
    (r.requirement_type ∉ RESOURCE_TYPES → ∀ a2 : PlotAction, a.orders = a2.orders →
      r.check_requirement_met a = r.check_requirement_met a2) := by
  refine ⟨?_, ?_, ?_, ?_, ?_, ?_, ?_, ?_, ?_⟩
  · intro h
    simp [ActionRequirement.check_requirement_met, h]
  · intro h ht
    simp [ActionRequirement.check_requirement_met, h, ht]
  · intro h ht
    simp [ActionRequirement.check_requirement_met, h, ht]
  · intro h ht
    simp [ActionRequirement.check_requirement_met, ActionRequirement.total, h, ht]
  · intro h ht
    simp [ActionRequirement.check_requirement_met, ActionRequirement.total, h, ht]
  · intro h ht
    simp [ActionRequirement.check_requirement_met, ActionRequirement.total, h, ht]
  · intro h ht
    simp [ActionRequirement.check_requirement_met, ActionRequirement.total, h, ht]
  · intro h ht
    simp [ActionRequirement.check_requirement_met, ActionRequirement.total, h, ht]
  · intro h a2 horders
    cases hR : r.hasEntityRef with
    | true => simp [ActionRequirement.check_requirement_met, hR]
    | false =>
      simp only [RESOURCE_TYPES, List.mem_cons, List.mem_singleton] at h
      push_neg at h
      cases ht : r.requirement_type <;>
        simp_all [ActionRequirement.check_requirement_met, ActionRequirement.total]

/-- Witness for C1: on a concrete clue requirement whose `fulfilled_by` is
set, `check_requirement_met` returns true, and on a concrete silver
requirement (required 100, 60 spent by the owner plus 40 by an assist) it
returns true via the aggregated amount. -/
theorem check_requirement_met_by_kind_witness :
    reqClueFulfilled.check_requirement_met baseAction = .ok true ∧
      ActionRequirement.check_requirement_met
        { blankRequirement .silver with total_required_amount := 100 }
        { baseAction with silver := 60, assists := [{ baseAssist with silver := 40 }] } =
        .ok true := by
  constructor
  · have h := (check_requirement_met_by_kind reqClueFulfilled baseAction).1 (by decide)
    simpa using h
  · have h := (check_requirement_met_by_kind
      { blankRequirement .silver with total_required_amount := 100 }
      { baseAction with silver := 60, assists := [{ baseAssist with silver := 40 }] }).2.2.2.1
      (by decide) rfl
    rw [h]
    decide

/-- Counterexample to C2 as stated: with the default silver cap of 0 and 100
own silver spent, the claimed formula counts the own amount at full value
(total 100) but `total_roll_value` computes 0 — a type whose cap is not
positive contributes nothing, the own amount included. -/
theorem total_roll_value_claim_counterexample :
    actionOwnSilver.total_roll_value = 0 ∧
      claimedTotalRollValue actionOwnSilver = 100 ∧
      actionOwnSilver.total_roll_value ≠ claimedTotalRollValue actionOwnSilver := by
  refine ⟨by decide, by decide, by decide⟩

/-- C2 (amended): `total_roll_value` equals the owner's roll value plus
`additional_modifiers`, plus the capped ceiling-divided assist roll total,
plus per resource type the capped ceiling-divided assist total plus the own
amount at full value — except that a bucket whose cap is 0 contributes
nothing at all. Each type is capped independently and rounded up; in
particular an assist roll total of 10 with divisor 3 and cap 5 contributes
`min(5, ceil(10/3)) = 4`. -/
theorem total_roll_value_formula (a : PlotAction) :
    a.total_roll_value = amendedTotalRollValue a ∧
      actionCeilExample.total_roll_value = 4 := by
  constructor
  · simp [PlotAction.total_roll_value, amendedTotalRollValue, get_value_from_assists,
      Nat.le_zero]
  · decide

/-- C10: when a resource type's cap (default 0) is not positive, the type
contributes nothing at all to `total_roll_value`: replacing the action's own
amount and every assist's amount of that type by arbitrary values leaves the
total unchanged — the own amount is dropped together with the assists'
amounts rather than counted at full value. -/
theorem zero_cap_drops_resource_type (a : PlotAction) :
    (a.max_points_silver = 0 → ∀ (v : Nat) (g : Assist → Nat),
      PlotAction.total_roll_value
        { a with silver := v, assists := a.assists.map (fun x => { x with silver := g x }) } =
        a.total_roll_value) ∧
    (a.max_points_economic = 0 → ∀ (v : Nat) (g : Assist → Nat),
      PlotAction.total_roll_value
        { a with economic := v, assists := a.assists.map (fun x => { x with economic := g x }) } =
        a.total_roll_value) ∧
    (a.max_points_social = 0 → ∀ (v : Nat) (g : Assist → Nat),
      PlotAction.total_roll_value
        { a with social := v, assists := a.assists.map (fun x => { x with social := g x }) } =
        a.total_roll_value) ∧
    (a.max_points_military = 0 → ∀ (v : Nat) (g : Assist → Nat),
      PlotAction.total_roll_value
        { a with military := v, assists := a.assists.map (fun x => { x with military := g x }) } =
        a.total_roll_value) := by
  refine ⟨?_, ?_, ?_, ?_⟩ <;>
    · intro h v g
      simp [PlotAction.total_roll_value, get_value_from_assists, h, List.map_map,
        Function.comp]
      rfl

/-- Witness for C10: applying the theorem at a concrete action (silver cap 0,
own silver 7, one assist) shows that rewriting every silver amount to 0
leaves the total unchanged. -/
theorem zero_cap_drops_resource_type_witness :
    PlotAction.total_roll_value
      { actionOwnSilver with
        silver := 0
        assists := actionOwnSilver.assists.map (fun x => { x with silver := 0 }) } =
      actionOwnSilver.total_roll_value :=
  (zero_cap_drops_resource_type actionOwnSilver).1 rfl 0 (fun _ => 0)

/-- C3: after any sequence of contribution attempts, the amount a resource
requirement reads through `ActionRequirement.total` — the figure used by
`check_requirement_met` — is the action's own counter of that type plus the
sum of its assists' counters. -/
theorem aggregate_equals_own_plus_assists (w : CWorld) (ops : List ContribOp)
    (r : ActionRequirement) :
    (r.requirement_type = .silver →
      r.total (w.applyContribs ops).action =
        (((w.applyContribs ops).action.silver +
          (((w.applyContribs ops).action.assists.map Assist.silver).sum) : Nat) : Int)) ∧
    (r.requirement_type = .military →
      r.total (w.applyContribs ops).action =
        (((w.applyContribs ops).action.military +
          (((w.applyContribs ops).action.assists.map Assist.military).sum) : Nat) : Int)) ∧
    (r.requirement_type = .economic →
      r.total (w.applyContribs ops).action =
        (((w.applyContribs ops).action.economic +
          (((w.applyContribs ops).action.assists.map Assist.economic).sum) : Nat) : Int)) ∧
    (r.requirement_type = .social →
      r.total (w.applyContribs ops).action =
        (((w.applyContribs ops).action.social +
          (((w.applyContribs ops).action.assists.map Assist.social).sum) : Nat) : Int)) ∧
    (r.requirement_type = .ap →
      r.total (w.applyContribs ops).action =
        (((w.applyContribs ops).action.action_points +
          (((w.applyContribs ops).action.assists.map Assist.action_points).sum) : Nat) : Int)) := by
  refine ⟨?_, ?_, ?_, ?_, ?_⟩ <;>
    · intro h
      simp [ActionRequirement.total, h, PlotAction.total_silver, PlotAction.total_military,
        PlotAction.total_economic, PlotAction.total_social, PlotAction.total_action_points]

/-- Witness for C3: after the owner's successful 300-silver contribution, the
requirement's collected total reads 300, the owner's counter plus the (empty)
assist sum. -/
theorem aggregate_equals_own_plus_assists_witness :
    reqSilver500.total (cworldContrib.applyContribs [opSilver300]).action =
      (((cworldContrib.applyContribs [opSilver300]).action.silver +
        (((cworldContrib.applyContribs [opSilver300]).action.assists.map Assist.silver).sum) : Nat) : Int) ∧
      reqSilver500.total (cworldContrib.applyContribs [opSilver300]).action = 300 := by
  constructor
  · exact (aggregate_equals_own_plus_assists cworldContrib [opSilver300] reqSilver500).1 rfl
  · decide

/-- A successful `pay_resources` call only happens for the three capital
names. -/
theorem pay_resources_ok_name (led : Ledger) (s : String) (v : Nat) (led2 : Ledger)
    (h : led.pay_resources s v = some led2) :
    s = "military" ∨ s = "economic" ∨ s = "social" := by
  unfold Ledger.pay_resources at h
  split_ifs at h <;> simp_all

/-- A successful payment dispatch hands back one of the five counter
attribute names. -/
theorem payForResource_ok_attr (led : Ledger) (s : String) (v : Nat)
    (led2 : Ledger) (attr : String)
    (h : payForResource led s v = .ok (led2, attr)) :
    attr = "silver" ∨ attr = "action_points" ∨ attr = "military" ∨
      attr = "economic" ∨ attr = "social" := by
  unfold payForResource at h
  split at h
  · cases hm : led.pay_money v <;> rw [hm] at h <;> simp_all
  · split at h
    · cases hm : led.pay_action_points v <;> rw [hm] at h <;> simp_all
    · cases hm : led.pay_resources s v <;> rw [hm] at h
      · simp_all
      · have hs := pay_resources_ok_name led s v _ hm
        simp only [Except.ok.injEq, Prod.mk.injEq] at h
        rcases hs with hx | hx | hx <;> simp [h.2 ▸ hx]

/-- A failed payment dispatch raises exactly the insufficient-funds or
insufficient-action-points rejection. -/
theorem payForResource_error_cases (led : Ledger) (s : String) (v : Nat)
    (e : ActionError) (h : payForResource led s v = .error e) :
    e = .cannotAfford ∨ e = .notEnoughActionPoints := by
  unfold payForResource at h
  split at h
  · cases hm : led.pay_money v <;> rw [hm] at h <;> simp_all
  · split at h
    · cases hm : led.pay_action_points v <;> rw [hm] at h <;> simp_all
    · cases hm : led.pay_resources s v <;> rw [hm] at h <;> simp_all

/-- With a valid contributor and one of the five counter attributes, the
counter update succeeds. -/
theorem addToContributorCounter_isSome (a : PlotAction) (who : Contributor) (d : Nat)
    (hd : a.contributorDompc who = some d) (attr : String) (v : Nat)
    (hattr : attr = "silver" ∨ attr = "action_points" ∨ attr = "military" ∨
      attr = "economic" ∨ attr = "social") :
    ∃ a2, a.addToContributorCounter who attr v = some a2 := by
  cases who with
  | owner =>
    rcases hattr with h | h | h | h | h <;> subst h <;>
      simp [PlotAction.addToContributorCounter]
  | assist i =>
    simp only [PlotAction.contributorDompc, Option.map_eq_some'] at hd
    obtain ⟨x, hx, -⟩ := hd
    rcases hattr with h | h | h | h | h <;> subst h <;>
      simp [PlotAction.addToContributorCounter, hx, Assist.addToCounter]

/-- C4: contributing to a resource-typed requirement through
`add_required_resource` rejects a non-positive amount, an amount that would
push `weekly_total` over a positive `max_rate`, an amount that would push the
collected total over `total_required_amount`, and a failed external debit —
each with a typed rejection and no state returned — and on success the
returned state carries the debited ledger, the contributor's incremented
counter, and the incremented `weekly_total` together. -/
theorem add_required_resource_resource_path (a : PlotAction) (who : Contributor)
    (led : Ledger) (af oo : Bool) (rt : String) (value : Int) (expl : String)
    (tx : String) (d : Nat) (t : ReqType) (idx : Nat) (req : ActionRequirement)
    (hact : a.contributorActions who = some tx) (htx : tx ≠ "")
    (hd : a.contributorDompc who = some d)
    (hplot : plotRaiseCreationErrors a = none)
    (hty : get_choice_constant_from_string (strLower rt) = some t)
    (hres : t ∈ RESOURCE_TYPES)
    (hfil : a.requirements.filter (fun r => decide (r.requirement_type = t)) ≠ [])
    (hidx : a.requirements.findIdx? (fun r => decide (r.requirement_type = t)) = some idx)
    (hreq : a.requirements[idx]? = some req)
    (hreqty : req.requirement_type = t)
    (hmet : req.check_requirement_met a = .ok false) :
    (value ≤ 0 →
      a.add_required_resource who led af oo rt value expl = .error .amountNotPositive) ∧
    (0 < value → req.check_value_exceeds_weekly_rate value = true →
      a.add_required_resource who led af oo rt value expl = .error .exceedsWeeklyRate) ∧
    (0 < value → req.check_value_exceeds_weekly_rate value = false →
      (req.total_required_amount : Int) < value + req.total a →
      a.add_required_resource who led af oo rt value expl = .error .exceedsTotalRequired) ∧
    (0 < value → req.check_value_exceeds_weekly_rate value = false →
      ¬((req.total_required_amount : Int) < value + req.total a) →
      ∀ e, payForResource led (strLower rt) value.toNat = .error e →
        a.add_required_resource who led af oo rt value expl = .error e ∧
          (e = .cannotAfford ∨ e = .notEnoughActionPoints)) ∧
    (0 < value → req.check_value_exceeds_weekly_rate value = false →
      ¬((req.total_required_amount : Int) < value + req.total a) →
      ∀ led2 attr, payForResource led (strLower rt) value.toNat = .ok (led2, attr) →
        ∃ a2, a.addToContributorCounter who attr value.toNat = some a2 ∧
          a.add_required_resource who led af oo rt value expl =
            .ok ({ a2 with requirements := a2.requirements.set idx { req with weekly_total := req.weekly_total + value.toNat } }, led2)) := by
  have key : a.add_required_resource who led af oo rt value expl =
      (if value ≤ 0 then .error .amountNotPositive
       else if req.check_value_exceeds_weekly_rate value then .error .exceedsWeeklyRate
       else if (req.total_required_amount : Int) < value + req.total a then
         .error .exceedsTotalRequired
       else
         match payForResource led (strLower rt) value.toNat with
         | .error e => .error e
         | .ok (led2, attr) =>
           match a.addToContributorCounter who attr value.toNat with
           | none => .error .invariantViolation
           | some a2 =>
             .ok ({ a2 with requirements := a2.requirements.set idx { req with weekly_total := req.weekly_total + value.toNat } }, led2)) := by
    have ht5 : t = ReqType.silver ∨ t = ReqType.military ∨ t = ReqType.economic ∨
        t = ReqType.social ∨ t = ReqType.ap := by
      simpa [RESOURCE_TYPES] using hres
    rcases ht5 with h | h | h | h | h <;> subst h <;>
      simp [PlotAction.add_required_resource, hact, hd, hplot, hty, htx, hfil, hidx,
        hreq, hmet, hreqty, FK_TYPES, RESOURCE_TYPES]
  refine ⟨?_, ?_, ?_, ?_, ?_⟩
  · intro hv
    rw [key, if_pos hv]
  · intro hv hrate
    rw [key, if_neg (by omega), if_pos hrate]
  · intro hv hrate htot
    rw [key, if_neg (by omega)]
    simp only [hrate, Bool.false_eq_true, if_false]
    rw [if_pos htot]
  · intro hv hrate htot e hpay
    rw [key, if_neg (by omega)]
    simp only [hrate, Bool.false_eq_true, if_false]
    rw [if_neg htot, hpay]
    exact ⟨rfl, payForResource_error_cases led (strLower rt) value.toNat e hpay⟩
  · intro hv hrate htot led2 attr hpay
    obtain ⟨a2, ha2⟩ := addToContributorCounter_isSome a who d hd attr value.toNat
      (payForResource_ok_attr led (strLower rt) value.toNat led2 attr hpay)
    refine ⟨a2, ha2, ?_⟩
    rw [key, if_neg (by omega)]
    simp only [hrate, Bool.false_eq_true, if_false]
    rw [if_neg htot, hpay]
    simp only [ha2]

/-- Witness for C4: the owner contributes 300 silver toward a 500-silver
requirement; the debit, the counter increment and the weekly-total increment
land together in the returned state. -/
theorem add_required_resource_resource_path_witness :
    ∃ a2, actionForContrib.addToContributorCounter .owner "silver" (Int.toNat 300) = some a2 ∧
      actionForContrib.add_required_resource .owner contribLedger false false "silver" 300 "" =
        .ok ({ a2 with requirements := a2.requirements.set 0 { reqSilver500 with weekly_total := reqSilver500.weekly_total + Int.toNat 300 } }, debitedLedger) :=
  (add_required_resource_resource_path actionForContrib .owner contribLedger false false
      "silver" 300 "" "story" 1 .silver 0 reqSilver500
      rfl (by decide) rfl rfl (by decide) (by decide) (by decide) (by decide) (by decide)
      rfl rfl).2.2.2.2
    (by decide) (by decide) (by decide) debitedLedger "silver" rfl

/-- The assist-cancellation fold leaves unrelated participants' ledgers
untouched. -/
theorem foldCancelRefund_not_mem (xs : List Assist) (L : Nat → Ledger) (n : Nat)
    (h : ∀ x ∈ xs, x.dompc ≠ n) :
    (xs.foldl (fun acc x => x.cancelRefund acc) L) n = L n := by
  induction xs generalizing L with
  | nil => rfl
  | cons y ys ih =>
    have hy : y.dompc ≠ n := h y (by simp)
    have hrest : ∀ x ∈ ys, x.dompc ≠ n := fun x hx => h x (by simp [hx])
    simp only [List.foldl_cons]
    rw [ih _ hrest]
    unfold Assist.cancelRefund updLedgers
    split
    · simp [Ne.symm hy]
    · rfl

/-- With pairwise-distinct assist participants, the assist-cancellation fold
refunds a member exactly when it wrote action text. -/
theorem foldCancelRefund_mem (xs : List Assist) (L : Nat → Ledger) (x : Assist)
    (hmem : x ∈ xs) (hnodup : (xs.map Assist.dompc).Nodup) :
    (xs.foldl (fun acc y => y.cancelRefund acc) L) x.dompc =
      (if x.actions ≠ "" then
        refundLedger (L x.dompc) x.silver x.military x.economic x.social x.action_points
      else L x.dompc) := by
  induction xs generalizing L with
  | nil => cases hmem
  | cons y ys ih =>
    simp only [List.map_cons, List.nodup_cons] at hnodup
    rcases List.mem_cons.mp hmem with h | h
    · subst h
      have hrest : ∀ z ∈ ys, z.dompc ≠ x.dompc := by
        intro z hz heq
        exact hnodup.1 (heq ▸ List.mem_map_of_mem Assist.dompc hz)
      simp only [List.foldl_cons]
      rw [foldCancelRefund_not_mem ys _ _ hrest]
      unfold Assist.cancelRefund updLedgers
      split
      · simp_all
      · simp_all
    · have hy : y.dompc ≠ x.dompc := by
        intro heq
        exact hnodup.1 (heq ▸ List.mem_map_of_mem Assist.dompc h)
      have hyL : (y.cancelRefund L) x.dompc = L x.dompc := by
        unfold Assist.cancelRefund updLedgers
        split
        · simp [Ne.symm hy]
        · rfl
      simp only [List.foldl_cons]
      rw [ih _ h hnodup.2, hyL]

/-- C5: `cancel()` first cancels every assist — refunding exactly those with
action text written, deleting all of them — then refunds the undertaking
itself, and finally hard-deletes it iff it was never submitted, else marks it
`CANCELLED` with no assists left attached; ledgers of uninvolved participants
are untouched. -/
theorem cancel_cascades_refunds_and_deletes (a : PlotAction) (L : Nat → Ledger)
    (hnodup : (a.assists.map Assist.dompc).Nodup)
    (howner : a.dompc ∉ a.assists.map Assist.dompc) :
    ((a.cancel L).2 = none ↔ a.date_submitted = none) ∧
    (a.date_submitted.isSome →
      (a.cancel L).2 = some { a with status := .cancelled, assists := [] }) ∧
    (∀ x ∈ a.assists,
      (a.cancel L).1 x.dompc =
        (if x.actions ≠ "" then
          refundLedger (L x.dompc) x.silver x.military x.economic x.social x.action_points
        else L x.dompc)) ∧
    ((a.cancel L).1 a.dompc =
      refundLedger (L a.dompc) a.silver a.military a.economic a.social a.action_points) ∧
    (∀ n, n ≠ a.dompc → n ∉ a.assists.map Assist.dompc → (a.cancel L).1 n = L n) := by
  refine ⟨?_, ?_, ?_, ?_, ?_⟩
  · unfold PlotAction.cancel
    cases h : a.date_submitted <;> simp [h]
  · intro h
    unfold PlotAction.cancel
    cases hd : a.date_submitted <;> simp_all
  · intro x hx
    have hxo : x.dompc ≠ a.dompc := by
      intro heq
      exact howner (heq ▸ List.mem_map_of_mem Assist.dompc hx)
    unfold PlotAction.cancel
    cases hd : a.date_submitted <;>
      simp only [Option.isNone_none, Option.isNone_some, if_true, if_false, Bool.false_eq_true] <;>
      · show (updLedgers _ a.dompc _) x.dompc = _
        unfold updLedgers
        rw [if_neg hxo]
        exact foldCancelRefund_mem a.assists L x hx hnodup
  · have hfold : (a.assists.foldl (fun acc y => y.cancelRefund acc) L) a.dompc = L a.dompc := by
      apply foldCancelRefund_not_mem
      intro x hx heq
      exact howner (heq ▸ List.mem_map_of_mem Assist.dompc hx)
    unfold PlotAction.cancel
    cases hd : a.date_submitted <;>
      simp only [Option.isNone_none, Option.isNone_some, if_true, if_false, Bool.false_eq_true] <;>
      · show (updLedgers _ a.dompc _) a.dompc = _
        unfold updLedgers
        rw [if_pos rfl, hfold]
  · intro n hno hnis
    have hfold : (a.assists.foldl (fun acc y => y.cancelRefund acc) L) n = L n := by
      apply foldCancelRefund_not_mem
      intro x hx heq
      exact hnis (heq ▸ List.mem_map_of_mem Assist.dompc hx)
    unfold PlotAction.cancel
    cases hd : a.date_submitted <;>
      simp only [Option.isNone_none, Option.isNone_some, if_true, if_false, Bool.false_eq_true] <;>
      · show (updLedgers _ a.dompc _) n = _
        unfold updLedgers
        rw [if_neg hno, hfold]

/-- Witness for C5: cancelling the three-assist submitted action refunds the
two contributors who wrote text, leaves the silent one's ledger alone, and
keeps the action as a `CANCELLED` row with no assists attached. -/
theorem cancel_cascades_refunds_and_deletes_witness :
    (actionWithAssists.cancel flatLedgers).2 =
      some { actionWithAssists with status := .cancelled, assists := [] } ∧
    (actionWithAssists.cancel flatLedgers).1 assistWrote1.dompc =
      (if assistWrote1.actions ≠ "" then
        refundLedger (flatLedgers assistWrote1.dompc) assistWrote1.silver assistWrote1.military
          assistWrote1.economic assistWrote1.social assistWrote1.action_points
      else flatLedgers assistWrote1.dompc) ∧
    (actionWithAssists.cancel flatLedgers).1 assistSilent.dompc =
      (if assistSilent.actions ≠ "" then
        refundLedger (flatLedgers assistSilent.dompc) assistSilent.silver assistSilent.military
          assistSilent.economic assistSilent.social assistSilent.action_points
      else flatLedgers assistSilent.dompc) := by
  have h := cancel_cascades_refunds_and_deletes actionWithAssists flatLedgers
    (by decide) (by decide)
  exact ⟨h.2.1 (by decide), h.2.2.1 assistWrote1 (by decide), h.2.2.1 assistSilent (by decide)⟩

/-- Counterexample to C6 as stated: `send` carries no status guard — called
on a `DRAFT` action it happily publishes it (status `PUBLISHED`, editable
locked, orders completed) instead of being rejected. -/
theorem send_allowed_from_draft :
    actionDraftWithOrder.status = .draft ∧
    (actionDraftWithOrder.send none 20 (some 9)).status = .published ∧
    (actionDraftWithOrder.send none 20 (some 9)).editable = false ∧
    (actionDraftWithOrder.send none 20 (some 9)).orders = [{ complete := true }] := by
  decide

/-- C6 (amended): `send` runs from any starting status; it sets the status to
`PUBLISHED`, locks `editable = false`, stamps the resolution-batch (beat) link
when an update is provided, and — when the action was not already published —
marks every linked army order complete. -/
theorem send_publishes_and_locks (a : PlotAction) (u : Option Nat) (wk : Nat)
    (c : Option Nat) :
    ((a.send u wk c).status = .published) ∧
    ((a.send u wk c).editable = false) ∧
    ((a.send u wk c).week = wk) ∧
    (∀ b, u = some b → (a.send u wk c).beat = some b) ∧
    (u = none → (a.send u wk c).beat = a.beat) ∧
    (a.status ≠ .published →
      (a.send u wk c).orders = a.orders.map (fun o => { o with complete := true })) ∧
    (a.status ≠ .published → ∀ o ∈ (a.send u wk c).orders, o.complete = true) ∧
    (a.status = .published → (a.send u wk c).orders = a.orders) := by
  cases u <;>
    by_cases hp : a.status = Status.published <;>
    simp_all [PlotAction.send] <;>
    split <;>
    simp_all [List.mem_map]

/-- Witness for C6 (amended): publishing the draft action with update 7
stamps the beat and completes its order. -/
theorem send_publishes_and_locks_witness :
    (actionDraftWithOrder.send (some 7) 20 none).status = .published ∧
    (actionDraftWithOrder.send (some 7) 20 none).beat = some 7 ∧
    (actionDraftWithOrder.send (some 7) 20 none).orders =
      actionDraftWithOrder.orders.map (fun o => { o with complete := true }) := by
  have h := send_publishes_and_locks actionDraftWithOrder (some 7) 20 none
  exact ⟨h.1, h.2.2.2.1 7 rfl, h.2.2.2.2.2.1 (by decide)⟩

/-- C7: `roll_all` with no target rank raises the submission rejection and
returns the action unchanged (the stored `roll_result` in particular); with a
target rank set it recomputes the total, maps it through the external outcome
table, and overwrites the stored result, so a second call yields the same
stored outcome rather than accumulating. -/
theorem roll_all_requires_target (a : PlotAction) (resolve : Int → Nat → Nat) :
    (a.target_rank = none → a.roll_all resolve = (a, some .noDifficultySet)) ∧
    (∀ rk, a.target_rank = some rk →
      a.roll_all resolve =
        ({ a with roll_result := some (resolve a.total_roll_value rk) }, none)) ∧
    (∀ rk, a.target_rank = some rk →
      ((a.roll_all resolve).1.roll_all resolve).1.roll_result =
        (a.roll_all resolve).1.roll_result) := by
  refine ⟨?_, ?_, ?_⟩
  · intro h
    simp [PlotAction.roll_all, h]
  · intro rk h
    simp [PlotAction.roll_all, h]
  · intro rk h
    simp [PlotAction.roll_all, h]
    rfl

/-- Witness for C7: with no rank the stored outcome stays `none`; with rank 3
and the oracle `fun t rk => t.toNat + rk` the stored outcome becomes 3. -/
theorem roll_all_requires_target_witness :
    (baseAction.roll_all (fun t rk => t.toNat + rk)).2 = some .noDifficultySet ∧
    (baseAction.roll_all (fun t rk => t.toNat + rk)).1.roll_result = none ∧
    ({ baseAction with target_rank := some 3 }.roll_all
        (fun t rk => t.toNat + rk)).1.roll_result = some 3 := by
  have h1 := (roll_all_requires_target baseAction (fun t rk => t.toNat + rk)).1 rfl
  have h2 := (roll_all_requires_target { baseAction with target_rank := some 3 }
    (fun t rk => t.toNat + rk)).2.1 3 rfl
  refine ⟨by rw [h1], by rw [h1]; decide, by rw [h2]; decide⟩

/-- `get_or_create` reports `created` exactly when no row matched the key. -/
theorem getOrCreateReq_created_iff (reqs : List ActionRequirement)
    (key : ActionRequirement → Bool) (blank : ActionRequirement)
    (upd : ActionRequirement → ActionRequirement) :
    (getOrCreateReq reqs key blank upd).2 = true ↔ ∀ r ∈ reqs, key r = false := by
  induction reqs with
  | nil => simp [getOrCreateReq]
  | cons r rest ih =>
    by_cases h : key r <;> simp [getOrCreateReq, h, ih]

/-- After `get_or_create` plus the field update, the first row matching the
key is the updated found-or-fresh row, provided the update preserves the key
and the fresh row matches it. -/
theorem getOrCreateReq_find (reqs : List ActionRequirement)
    (key : ActionRequirement → Bool) (blank : ActionRequirement)
    (upd : ActionRequirement → ActionRequirement)
    (hb : key (upd blank) = true)
    (hstable : ∀ r, key r = true → key (upd r) = true) :
    (getOrCreateReq reqs key blank upd).1.find? key =
      some (upd (((reqs.find? key).getD blank))) := by
  induction reqs with
  | nil => simp [getOrCreateReq, List.find?, hb]
  | cons r rest ih =>
    by_cases h : key r
    · simp [getOrCreateReq, h, List.find?, hstable r h]
    · simp only [getOrCreateReq, h, Bool.false_eq_true, if_false]
      rw [List.find?]
      simp only [h]
      rw [List.find?]
      simp only [h, Bool.false_eq_true]
      exact ih

/-- `get_or_create` appends exactly one row when it creates, none when it
finds. -/
theorem getOrCreateReq_length (reqs : List ActionRequirement)
    (key : ActionRequirement → Bool) (blank : ActionRequirement)
    (upd : ActionRequirement → ActionRequirement) :
    (getOrCreateReq reqs key blank upd).1.length =
      (if (getOrCreateReq reqs key blank upd).2 then reqs.length + 1 else reqs.length) := by
  induction reqs with
  | nil => simp [getOrCreateReq]
  | cons r rest ih =>
    by_cases h : key r <;> simp [getOrCreateReq, h, ih] <;> split <;> simp

/-- When a row already matches the key, `get_or_create` creates nothing and
the list keeps its length. -/
theorem getOrCreateReq_no_create_of_find (reqs : List ActionRequirement)
    (key : ActionRequirement → Bool) (blank : ActionRequirement)
    (upd : ActionRequirement → ActionRequirement)
    (h : (reqs.find? key).isSome) :
    (getOrCreateReq reqs key blank upd).2 = false ∧
      (getOrCreateReq reqs key blank upd).1.length = reqs.length := by
  obtain ⟨x, hx⟩ := Option.isSome_iff_exists.mp h
  have hmem := List.mem_of_find?_eq_some hx
  have hkey := List.find?_some hx
  have hnc : (getOrCreateReq reqs key blank upd).2 = false := by
    rw [Bool.eq_false_iff]
    intro hcr
    have := (getOrCreateReq_created_iff reqs key blank upd).mp hcr x hmem
    simp [this] at hkey
  refine ⟨hnc, ?_⟩
  rw [getOrCreateReq_length, hnc]
  simp

/-- C8: `add_action_requirement` always forces the action to `NEEDS_PLAYER`
with `editable = true`, whatever the prior status; it notifies the action
exactly when a brand-new requirement row was created; a resource-typed call
gets-or-creates the single requirement of that type and sets its
`total_required_amount` and `max_rate`; and entity-typed duplicates keyed by
the same (type, entity) collapse to a single requirement. -/
theorem add_action_requirement_spec (a : PlotAction) (t : ReqType) (amount : Nat)
    (txt : String) (entity : Nat) (mr : Nat) :
    ((a.add_action_requirement t amount txt entity mr).1.status = .needsPlayer) ∧
    ((a.add_action_requirement t amount txt entity mr).1.editable = true) ∧
    ((a.add_action_requirement t amount txt entity mr).2 = true ↔
      ∀ r ∈ a.requirements, reqKey t entity r = false) ∧
    (t ∈ RESOURCE_TYPES →
      (a.add_action_requirement t amount txt entity mr).1.requirements.find?
          (fun r => decide (r.requirement_type = t)) =
        some { (a.requirements.find? (fun r => decide (r.requirement_type = t))).getD (blankRequirement t) with total_required_amount := amount, max_rate := mr }) ∧
    (t ∈ FK_TYPES →
      ((a.add_action_requirement t amount txt entity mr).1.add_action_requirement t
          amount txt entity mr).2 = false ∧
      ((a.add_action_requirement t amount txt entity mr).1.add_action_requirement t
          amount txt entity mr).1.requirements.length =
        (a.add_action_requirement t amount txt entity mr).1.requirements.length) := by
  refine ⟨rfl, rfl, ?_, ?_, ?_⟩
  · cases t <;>
      simp [PlotAction.add_action_requirement, reqKey, RESOURCE_TYPES,
        DESCRIPTION_TYPES, FK_TYPES, getOrCreateReq_created_iff]
  · intro ht
    have h5 : t = ReqType.silver ∨ t = ReqType.military ∨ t = ReqType.economic ∨
        t = ReqType.social ∨ t = ReqType.ap := by
      simpa [RESOURCE_TYPES] using ht
    rcases h5 with h | h | h | h | h <;> subst h <;>
      · show (getOrCreateReq a.requirements _ _ _).1.find? _ = _
        exact getOrCreateReq_find _ _ _ _ rfl (fun r h => h)
  · intro ht
    have h5 : t = ReqType.clue ∨ t = ReqType.revelation ∨ t = ReqType.skillNode ∨
        t = ReqType.spell ∨ t = ReqType.item := by
      simpa [FK_TYPES] using ht
    have key1 : ∀ t0, t0 ∈ FK_TYPES →
        ((a.add_action_requirement t0 amount txt entity mr).1.requirements.find?
          (fkKeyMatch t0 entity)).isSome := by
      intro t0 ht0
      have h5b : t0 = ReqType.clue ∨ t0 = ReqType.revelation ∨ t0 = ReqType.skillNode ∨
          t0 = ReqType.spell ∨ t0 = ReqType.item := by
        simpa [FK_TYPES] using ht0
      have hc_clue :
          ((a.add_action_requirement ReqType.clue amount txt entity mr).1.requirements.find?
            (fkKeyMatch ReqType.clue entity)).isSome := by
        have hf := getOrCreateReq_find a.requirements (fkKeyMatch ReqType.clue entity)
          (blankFkRequirement ReqType.clue entity) id
          (by simp [fkKeyMatch, blankFkRequirement, blankRequirement]) (fun r h => h)
        show ((getOrCreateReq a.requirements (fkKeyMatch ReqType.clue entity)
          (blankFkRequirement ReqType.clue entity) id).1.find? (fkKeyMatch ReqType.clue entity)).isSome
        rw [hf]
        rfl
      have hc_revelation :
          ((a.add_action_requirement ReqType.revelation amount txt entity mr).1.requirements.find?
            (fkKeyMatch ReqType.revelation entity)).isSome := by
        have hf := getOrCreateReq_find a.requirements (fkKeyMatch ReqType.revelation entity)
          (blankFkRequirement ReqType.revelation entity) id
          (by simp [fkKeyMatch, blankFkRequirement, blankRequirement]) (fun r h => h)
        show ((getOrCreateReq a.requirements (fkKeyMatch ReqType.revelation entity)
          (blankFkRequirement ReqType.revelation entity) id).1.find? (fkKeyMatch ReqType.revelation entity)).isSome
        rw [hf]
        rfl
      have hc_skillNode :
          ((a.add_action_requirement ReqType.skillNode amount txt entity mr).1.requirements.find?
            (fkKeyMatch ReqType.skillNode entity)).isSome := by
        have hf := getOrCreateReq_find a.requirements (fkKeyMatch ReqType.skillNode entity)
          (blankFkRequirement ReqType.skillNode entity) id
          (by simp [fkKeyMatch, blankFkRequirement, blankRequirement]) (fun r h => h)
        show ((getOrCreateReq a.requirements (fkKeyMatch ReqType.skillNode entity)
          (blankFkRequirement ReqType.skillNode entity) id).1.find? (fkKeyMatch ReqType.skillNode entity)).isSome
        rw [hf]
        rfl
      have hc_spell :
          ((a.add_action_requirement ReqType.spell amount txt entity mr).1.requirements.find?
            (fkKeyMatch ReqType.spell entity)).isSome := by
        have hf := getOrCreateReq_find a.requirements (fkKeyMatch ReqType.spell entity)
          (blankFkRequirement ReqType.spell entity) id
          (by simp [fkKeyMatch, blankFkRequirement, blankRequirement]) (fun r h => h)
        show ((getOrCreateReq a.requirements (fkKeyMatch ReqType.spell entity)
          (blankFkRequirement ReqType.spell entity) id).1.find? (fkKeyMatch ReqType.spell entity)).isSome
        rw [hf]
        rfl
      have hc_item :
          ((a.add_action_requirement ReqType.item amount txt entity mr).1.requirements.find?
            (fkKeyMatch ReqType.item entity)).isSome := by
        have hf := getOrCreateReq_find a.requirements (fkKeyMatch ReqType.item entity)
          (blankFkRequirement ReqType.item entity) id
          (by simp [fkKeyMatch, blankFkRequirement, blankRequirement]) (fun r h => h)
        show ((getOrCreateReq a.requirements (fkKeyMatch ReqType.item entity)
          (blankFkRequirement ReqType.item entity) id).1.find? (fkKeyMatch ReqType.item entity)).isSome
        rw [hf]
        rfl
      rcases h5b with h | h | h | h | h <;> subst h
      · exact hc_clue
      · exact hc_revelation
      · exact hc_skillNode
      · exact hc_spell
      · exact hc_item
    have hstep_clue := getOrCreateReq_no_create_of_find
      ((a.add_action_requirement ReqType.clue amount txt entity mr).1.requirements)
      (fkKeyMatch ReqType.clue entity) (blankFkRequirement ReqType.clue entity) id
      (key1 ReqType.clue (by decide))
    have hstep_revelation := getOrCreateReq_no_create_of_find
      ((a.add_action_requirement ReqType.revelation amount txt entity mr).1.requirements)
      (fkKeyMatch ReqType.revelation entity) (blankFkRequirement ReqType.revelation entity) id
      (key1 ReqType.revelation (by decide))
    have hstep_skillNode := getOrCreateReq_no_create_of_find
      ((a.add_action_requirement ReqType.skillNode amount txt entity mr).1.requirements)
      (fkKeyMatch ReqType.skillNode entity) (blankFkRequirement ReqType.skillNode entity) id
      (key1 ReqType.skillNode (by decide))
    have hstep_spell := getOrCreateReq_no_create_of_find
      ((a.add_action_requirement ReqType.spell amount txt entity mr).1.requirements)
      (fkKeyMatch ReqType.spell entity) (blankFkRequirement ReqType.spell entity) id
      (key1 ReqType.spell (by decide))
    have hstep_item := getOrCreateReq_no_create_of_find
      ((a.add_action_requirement ReqType.item amount txt entity mr).1.requirements)
      (fkKeyMatch ReqType.item entity) (blankFkRequirement ReqType.item entity) id
      (key1 ReqType.item (by decide))
    rcases h5 with h | h | h | h | h <;> subst h
    · exact hstep_clue
    · exact hstep_revelation
    · exact hstep_skillNode
    · exact hstep_spell
    · exact hstep_item

/-- Witness for C8: adding a 500-silver requirement (max rate 100) to a fresh
draft action re-opens editing, notifies (created), and stores the amounts;
adding the same clue requirement twice creates only one row. -/
theorem add_action_requirement_spec_witness :
    ((baseAction.add_action_requirement .silver 500 "" 0 100).1.status = .needsPlayer) ∧
    ((baseAction.add_action_requirement .silver 500 "" 0 100).1.editable = true) ∧
    ((baseAction.add_action_requirement .silver 500 "" 0 100).2 = true) ∧
    ((baseAction.add_action_requirement .silver 500 "" 0 100).1.requirements.find?
        (fun r => decide (r.requirement_type = ReqType.silver)) =
      some { blankRequirement .silver with total_required_amount := 500, max_rate := 100 }) ∧
    (((baseAction.add_action_requirement .clue 0 "" 5 0).1.add_action_requirement
        .clue 0 "" 5 0).2 = false) := by
  have h := add_action_requirement_spec baseAction .silver 500 "" 0 100
  have hc := add_action_requirement_spec baseAction .clue 0 "" 5 0
  refine ⟨h.1, h.2.1, h.2.2.1.mpr (by simp [baseAction]), ?_, (hc.2.2.2.2 (by decide)).1⟩
  have h4 := h.2.2.2.1 (by decide)
  rw [h4]
  decide

/-- A successful preflight leaves the world untouched (the one-shot warning
prompt only mutates when it raises). -/
theorem raise_submission_errors_ok_world (w w2 : World)
    (h : w.raise_submission_errors = (w2, none)) : w2 = w := by
  unfold World.raise_submission_errors at h
  repeat' split at h
  all_goals simp_all

/-- A failing preflight on a non-draft action leaves the world untouched. -/
theorem raise_submission_errors_err_world (w w2 : World) (oe : Option ActionError)
    (hnd : w.action.status ≠ .draft)
    (h : w.raise_submission_errors = (w2, oe)) : w2 = w := by
  unfold World.raise_submission_errors at h
  repeat' split at h
  all_goals simp_all

/-- After any successful submission the action is out of `DRAFT`, carries a
submission timestamp, and is never left at `NEEDS_PLAYER` while nothing is
editable. -/
theorem on_submit_success_invariants (w : World) (now : Nat) :
    ((w.on_submit_success now).1.action.status ≠ .draft) ∧
    ((w.on_submit_success now).1.action.date_submitted.isSome = true) ∧
    ((w.on_submit_success now).1.action.status = .needsPlayer →
      (w.on_submit_success now).1.action.allEditableNonempty = true) := by
  unfold World.on_submit_success
  by_cases hd : w.action.status = Status.draft <;>
    · simp only [hd]
      repeat' split
      all_goals simp_all [Option.isSome_iff_ne_none]

/-- A submission on a non-draft, already-stamped action that is not parked in
`NEEDS_PLAYER`-with-everything-locked emits no notification, keeps the status
and keeps the timestamp. -/
theorem on_submit_success_nondraft (w : World) (now : Nat)
    (hnd : w.action.status ≠ .draft)
    (hds : w.action.date_submitted.isSome = true)
    (hed : w.action.status = .needsPlayer → w.action.allEditableNonempty = true) :
    ((w.on_submit_success now).2 = []) ∧
    ((w.on_submit_success now).1.action.status = w.action.status) ∧
    ((w.on_submit_success now).1.action.date_submitted = w.action.date_submitted) := by
  unfold World.on_submit_success
  have hdd : decide (w.action.status = Status.draft) = false := by
    simp [hnd]
  have hnn : w.action.date_submitted.isNone = false := by
    cases h : w.action.date_submitted <;> simp_all
  by_cases hnp : w.action.status = Status.needsPlayer
  · have he := hed hnp
    simp [hdd, hnn, hnp, he]
  · have hrr : decide (w.action.status = Status.needsPlayer) = false := by
      simp [hnp]
    simp [hdd, hnn, hrr]

/-- Any successful submission leaves the action in the post-submission shape:
out of draft, timestamped, and never `NEEDS_PLAYER` with nothing editable. -/
theorem submit_ok_invariants (w : World) (now : Nat) (w1 : World) (evs : List Event)
    (h : w.submit now = (w1, none, evs)) :
    w1.action.status ≠ .draft ∧ w1.action.date_submitted.isSome = true ∧
      (w1.action.status = .needsPlayer → w1.action.allEditableNonempty = true) := by
  unfold World.submit at h
  cases hr : w.raise_submission_errors with
  | mk wr oe =>
    rw [hr] at h
    cases oe with
    | some e => simp at h
    | none =>
      simp only [Prod.mk.injEq] at h
      obtain ⟨hw1, -, -⟩ := h
      rw [← hw1]
      exact on_submit_success_invariants wr now

/-- C9: calling `submit()` twice in immediate succession, with nothing
changed in between, emits no notification on the second call (hence no
double-charge and no duplicate informs), does not advance the status a second
time, and keeps `date_submitted` exactly as after the first call — whether
the second call errors out or succeeds. -/
theorem submit_idempotent (w : World) (n1 n2 : Nat) (w1 : World) (evs1 : List Event)
    (w2 : World) (e2 : Option ActionError) (evs2 : List Event)
    (h1 : w.submit n1 = (w1, none, evs1))
    (h2 : w1.submit n2 = (w2, e2, evs2)) :
    evs2 = [] ∧ w2.action.status = w1.action.status ∧
      w2.action.date_submitted = w1.action.date_submitted := by
  obtain ⟨hnd, hds, hed⟩ := submit_ok_invariants w n1 w1 evs1 h1
  unfold World.submit at h2
  cases hr : w1.raise_submission_errors with
  | mk wr oe =>
    rw [hr] at h2
    cases oe with
    | some e =>
      have hwr : wr = w1 := raise_submission_errors_err_world w1 wr (some e) hnd hr
      simp only [Prod.mk.injEq] at h2
      obtain ⟨hw2, -, hevs⟩ := h2
      subst hwr
      rw [← hw2, ← hevs]
      exact ⟨rfl, rfl, rfl⟩
    | none =>
      have hwr : wr = w1 := raise_submission_errors_ok_world w1 wr hr
      subst hwr
      simp only [Prod.mk.injEq] at h2
      obtain ⟨hw2, -, hevs⟩ := h2
      have hpost := on_submit_success_nondraft wr n2 hnd hds hed
      rw [← hw2, ← hevs]
      exact ⟨hpost.1, hpost.2.1, hpost.2.2⟩

/-- Witness for C9: submitting the ready world and then submitting again
emits nothing the second time and leaves status and timestamp where the first
call put them. -/
theorem submit_idempotent_witness :
    ((readyWorld.submit 3).1.submit 4).2.2 = [] ∧
    ((readyWorld.submit 3).1.submit 4).1.action.status =
      (readyWorld.submit 3).1.action.status ∧
    ((readyWorld.submit 3).1.submit 4).1.action.date_submitted =
      (readyWorld.submit 3).1.action.date_submitted :=
  submit_idempotent readyWorld 3 4 (readyWorld.submit 3).1 (readyWorld.submit 3).2.2
    ((readyWorld.submit 3).1.submit 4).1 ((readyWorld.submit 3).1.submit 4).2.1
    ((readyWorld.submit 3).1.submit 4).2.2 (by decide) rfl
